import Mathlib

/-!
Verification of the loqui connection event handler
(`src/rust/loqui_connection/src/event_handler.rs`) against its
natural-language specification.

The engine core is embedded shallowly: the `EventHandler` struct and its
methods are translated into pure Lean functions, with mutation of the
engine state made explicit (each handler returns the updated state) and
side effects on the external `Handler` and the spawned asynchronous tasks
recorded in an explicit effect trace.  Machine integers (`u8` flags,
`u16` codes, `u32` sequence ids) are modelled as `Nat`, with wrapping
written explicitly where the spec requires it.

Types that the engine depends on but whose sources are not part of the
provided tree (`loqui_protocol::frames`, `LoquiError`, `LoquiErrorCode`,
`IdSequence`, the `Handler` trait) are modelled from the spec, as marked
in their doc comments.
-/

namespace Loqui

/-- Modelled from the spec: the wire frames of `loqui_protocol::frames`
(spec section 6 gives each frame's fields).  `Ping`: flags and a sequence
id. -/
structure Ping where
  flags : Nat
  sequence_id : Nat
  deriving DecidableEq, Repr

/-- Modelled from the spec: `Pong` echoes a `Ping`'s flags and sequence
id. -/
structure Pong where
  flags : Nat
  sequence_id : Nat
  deriving DecidableEq, Repr

/-- Modelled from the spec: `Request` carries a sequence id and a
payload. -/
structure Request where
  sequence_id : Nat
  payload : List Nat
  deriving DecidableEq, Repr

/-- Modelled from the spec: `Response` carries a sequence id and a
payload. -/
structure Response where
  sequence_id : Nat
  payload : List Nat
  deriving DecidableEq, Repr

/-- Modelled from the spec: `Push` carries a payload only. -/
structure Push where
  payload : List Nat
  deriving DecidableEq, Repr

/-- Modelled from the spec: the `Error` frame carries flags, a sequence
id, a numeric `u16` code and an opaque byte payload. -/
structure ErrorFrame where
  flags : Nat
  sequence_id : Nat
  code : Nat
  payload : List Nat
  deriving DecidableEq, Repr

/-- Modelled from the spec: `GoAway` is a peer-initiated termination
signal with a payload. -/
structure GoAway where
  payload : List Nat
  deriving DecidableEq, Repr

/-- Modelled from the spec: `Hello` and `HelloAck` are handshake frames
with a handshake payload, opaque to this engine. -/
structure Hello where
  payload : List Nat
  deriving DecidableEq, Repr

/-- Modelled from the spec: the handshake acknowledgement frame. -/
structure HelloAck where
  payload : List Nat
  deriving DecidableEq, Repr

/-- Modelled from the spec: the tagged union of wire frames
(`LoquiFrame`). -/
inductive LoquiFrame where
  | Hello (h : Hello)
  | HelloAck (h : HelloAck)
  | Ping (p : Loqui.Ping)
  | Pong (p : Loqui.Pong)
  | Request (r : Loqui.Request)
  | Response (r : Loqui.Response)
  | Push (p : Loqui.Push)
  | GoAway (g : Loqui.GoAway)
  | Error (e : ErrorFrame)
  deriving DecidableEq, Repr

/-- Modelled from the spec: every frame kind has a distinct numeric
opcode (the concrete numbers are fixed by the wire protocol layer, which
is outside the provided sources; only their distinctness per frame kind
matters to the engine). -/
def LoquiFrame.opcode : LoquiFrame → Nat
  | .Hello _ => 1
  | .HelloAck _ => 2
  | .Ping _ => 3
  | .Pong _ => 4
  | .Request _ => 5
  | .Response _ => 6
  | .Push _ => 7
  | .GoAway _ => 8
  | .Error _ => 9

/-- Modelled from the spec: a delegated frame is the generic value built
from a `Request`, `Response`, `Push` or `Error` frame and handed to the
external `Handler` (the `Into<DelegatedFrame>` conversions used by
`delegate_frame`). -/
inductive DelegatedFrame where
  | Request (r : Loqui.Request)
  | Response (r : Loqui.Response)
  | Push (p : Loqui.Push)
  | Error (e : ErrorFrame)
  deriving DecidableEq, Repr

/-- Modelled from the spec: the connection-fatal error kinds raised by
the engine (`LoquiError`): `PingTimeout`, `InvalidOpcode` with the actual
opcode and an optional expected opcode, `ToldToGoAway` carrying the
original `GoAway` frame, and `ConnectionCloseRequested`. -/
inductive LoquiError where
  | PingTimeout
  | InvalidOpcode (actual : Nat) (expected : Option Nat)
  | ToldToGoAway (go_away : GoAway)
  | ConnectionCloseRequested
  deriving DecidableEq, Repr

/-- Modelled from the spec: `InternalServerError` is the one numeric
error code the engine synthesizes directly (`LoquiErrorCode`).  The spec
leaves the numeric constant to the protocol layer; it is fixed here as an
arbitrary concrete `u16` value. -/
def LoquiErrorCode.InternalServerError : Nat := 8

/-- Modelled from the spec: the sequence generator (`IdSequence`) is a
monotonically increasing counter that wraps at its bit width (`u32`);
the first allocated id is 1 (spec section 8, scenario 1). -/
structure IdSequence where
  current : Nat
  deriving DecidableEq, Repr

/-- Modelled from the spec: a fresh generator has issued no ids yet. -/
def IdSequence.default : IdSequence := ⟨0⟩

/-- Modelled from the spec: allocate the next id, wrapping at `2 ^ 32`. -/
def IdSequence.next (s : IdSequence) : Nat × IdSequence :=
  let v := (s.current + 1) % 2 ^ 32
  (v, ⟨v⟩)

/-- Modelled from the spec: the external pluggable `Handler` contract
(spec section 6).  `τ` is the application-defined internal event type,
`π` the type of pending computations, `ε` the encoder type.
`handle_frame` receives a delegated frame and the encoder and may return
a pending computation; `handle_internal_event` receives the event,
mutable access to the sequence generator, and the encoder, and may return
an outgoing frame.  The `handle_ping` hook returns nothing; its
invocation is recorded in the engine's effect trace. -/
structure Handler (τ π ε : Type) where
  handle_frame : DelegatedFrame → ε → Option π
  handle_internal_event : τ → IdSequence → ε → Option LoquiFrame × IdSequence

/-- The events delivered to the engine, one per invocation
(`connection::Event`).  `ResponseComplete` carries
`Result<Response, (Error, u32)>`; the application-level error is
modelled by `AppError` below. -/
structure AppError where
  msg : String
  deriving DecidableEq, Repr

inductive Event (τ : Type) where
  | Ping
  | SocketReceive (frame : LoquiFrame)
  | InternalEvent (event : τ)
  | ResponseComplete (result : Except (AppError × Nat) Loqui.Response)
  | Close

/-- Observable side effects of one `handle_event` call: calls into the
external `Handler` and asynchronous tasks spawned through
`tokio::spawn_async` (the spawned closure's eventual send of a
`ResponseComplete` event through the cloned `self_sender` is the
reinjection; the channel itself is external, so the spawn is recorded
with the pending computation it captured). -/
inductive Effect (τ π : Type) where
  | handleFrameCall (d : DelegatedFrame)
  | handlePingCall
  | handleInternalEventCall (e : τ)
  | spawnTask (p : π)

/-- The engine state (`EventHandler` struct): the external handler, the
keepalive flag `pong_received`, the sequence generator, and the encoder.
The `self_sender` field is the reinjection channel handle; it is external
and its use is recorded through `Effect.spawnTask`. -/
structure EventHandler (τ π ε : Type) where
  handler : Handler τ π ε
  pong_received : Bool
  id_sequence : IdSequence
  encoder : ε

/-- `EventHandler::new`: fresh engine with `pong_received = true` and a
default sequence generator. -/
def EventHandler.new (handler : Handler τ π ε) (encoder : ε) : EventHandler τ π ε :=
  { handler := handler
    pong_received := true
    id_sequence := IdSequence.default
    encoder := encoder }

/-- `MaybeFrameResult`: `Result<Option<LoquiFrame>, Error>`. -/
def MaybeFrameResult := Except LoquiError (Option LoquiFrame)

/-- The outcome of one engine method call: the returned value, the
engine state after the call, and the trace of external side effects. -/
structure StepResult (τ π ε : Type) where
  result : MaybeFrameResult
  state : EventHandler τ π ε
  effects : List (Effect τ π)

def EventHandler.handle_close (s : EventHandler τ π ε) : StepResult τ π ε :=
  { result := .error .ConnectionCloseRequested, state := s, effects := [] }

def EventHandler.handle_ping (s : EventHandler τ π ε) : StepResult τ π ε :=
  if s.pong_received then
    let n := s.id_sequence.next
    let ping : Loqui.Ping := { sequence_id := n.1, flags := 0 }
    { result := .ok (some (.Ping ping))
      state := { s with pong_received := false, id_sequence := n.2 }
      effects := [] }
  else
    { result := .error .PingTimeout, state := s, effects := [] }

def EventHandler.handle_handshake_frame (s : EventHandler τ π ε) (frame : LoquiFrame) :
    StepResult τ π ε :=
  { result := .error (.InvalidOpcode frame.opcode none), state := s, effects := [] }

def EventHandler.delegate_frame (s : EventHandler τ π ε) (delegated_frame : DelegatedFrame) :
    StepResult τ π ε :=
  match s.handler.handle_frame delegated_frame s.encoder with
  | some future =>
    { result := .ok none
      state := s
      effects := [.handleFrameCall delegated_frame, .spawnTask future] }
  | none =>
    { result := .ok none
      state := s
      effects := [.handleFrameCall delegated_frame] }

def EventHandler.handle_ping_frame (s : EventHandler τ π ε) (ping : Loqui.Ping) :
    StepResult τ π ε :=
  let pong : Loqui.Pong := { flags := ping.flags, sequence_id := ping.sequence_id }
  { result := .ok (some (.Pong pong)), state := s, effects := [.handlePingCall] }

def EventHandler.handle_pong_frame (s : EventHandler τ π ε) (_pong : Loqui.Pong) :
    StepResult τ π ε :=
  { result := .ok none, state := { s with pong_received := true }, effects := [] }

def EventHandler.handle_frame (s : EventHandler τ π ε) (frame : LoquiFrame) :
    StepResult τ π ε :=
  match frame with
  | .Hello h => s.handle_handshake_frame (.Hello h)
  | .HelloAck h => s.handle_handshake_frame (.HelloAck h)
  | .Ping ping => s.handle_ping_frame ping
  | .Pong pong => s.handle_pong_frame pong
  | .Request request => s.delegate_frame (.Request request)
  | .Response response => s.delegate_frame (.Response response)
  | .Push push => s.delegate_frame (.Push push)
  | .GoAway go_away =>
    { result := .error (.ToldToGoAway go_away), state := s, effects := [] }
  | .Error error => s.delegate_frame (.Error error)

/-- Rust's `char` escaping as performed by `Debug` formatting of a
string (`format!("{:?}", s)`): quote and backslash are escaped, the
common control characters get their short escapes, other ASCII control
characters get a `\u` brace escape.  (Full `escape_debug` also
`\u`-escapes non-printable characters beyond ASCII via Unicode tables;
the engine only ever formats error messages, so the ASCII behaviour is
what the claims exercise.) -/
def hexDigitChar (n : Nat) : Char :=
  if n < 10 then Char.ofNat (48 + n) else Char.ofNat (87 + n)

def escapeDebugChar (c : Char) : List Char :=
  if c = '"' then ['\\', '"']
  else if c = '\\' then ['\\', '\\']
  else if c = '\n' then ['\\', 'n']
  else if c = '\r' then ['\\', 'r']
  else if c = '\t' then ['\\', 't']
  else if c.toNat = 0 then ['\\', '0']
  else if c.toNat < 32 ∨ c.toNat = 127 then
    '\\' :: 'u' :: '\x7b' ::
      ((if c.toNat < 16 then [hexDigitChar c.toNat]
        else [hexDigitChar (c.toNat / 16), hexDigitChar (c.toNat % 16)]) ++ ['\x7d'])
  else [c]

/-- `format!("{:?}", s)` for a Rust `String` `s`: the string's
characters, each debug-escaped, enclosed in literal double quotes. -/
def rustStrDebug (s : String) : List Char :=
  '"' :: (s.data.map escapeDebugChar).flatten ++ ['"']

/-- UTF-8 encoding of one character (`str::as_bytes`). -/
def utf8EncodeChar (c : Char) : List Nat :=
  let n := c.toNat
  if n < 128 then [n]
  else if n < 2048 then [192 + n / 64, 128 + n % 64]
  else if n < 65536 then [224 + n / 4096, 128 + n / 64 % 64, 128 + n % 64]
  else [240 + n / 262144, 128 + n / 4096 % 64, 128 + n / 64 % 64, 128 + n % 64]

/-- UTF-8 bytes of a character list (`str::as_bytes().to_vec()`). -/
def utf8Encode (cs : List Char) : List Nat :=
  (cs.map utf8EncodeChar).flatten

/-- `handle_response_complete`: `Ok(response)` is emitted unmodified;
`Err((error, sequence_id))` becomes an `Error` frame with flags 0, the
given sequence id, code `InternalServerError`, and payload
`format!("{:?}", error.to_string()).as_bytes().to_vec()`. -/
def EventHandler.handle_response_complete (s : EventHandler τ π ε)
    (result : Except (AppError × Nat) Loqui.Response) : StepResult τ π ε :=
  match result with
  | .ok response =>
    { result := .ok (some (.Response response)), state := s, effects := [] }
  | .error (error, sequence_id) =>
    let errorFrame : ErrorFrame :=
      { flags := 0
        sequence_id := sequence_id
        code := LoquiErrorCode.InternalServerError
        payload := utf8Encode (rustStrDebug error.msg) }
    { result := .ok (some (.Error errorFrame)), state := s, effects := [] }

def EventHandler.handle_internal_event (s : EventHandler τ π ε) (internal_event : τ) :
    StepResult τ π ε :=
  let r := s.handler.handle_internal_event internal_event s.id_sequence s.encoder
  { result := .ok r.1
    state := { s with id_sequence := r.2 }
    effects := [.handleInternalEventCall internal_event] }

/-- `handle_event`: the sole entry point, dispatching on the event tag. -/
def EventHandler.handle_event (s : EventHandler τ π ε) (event : Event τ) :
    StepResult τ π ε :=
  match event with
  | .Ping => s.handle_ping
  | .SocketReceive frame => s.handle_frame frame
  | .InternalEvent internal_event => s.handle_internal_event internal_event
  | .ResponseComplete response => s.handle_response_complete response
  | .Close => s.handle_close

/-! Concrete instances used by the witness theorems below. -/

/-- A trivial handler: never returns a pending computation, never emits
a frame for an internal event. -/
def unitHandler : Handler Unit Unit Unit :=
  { handle_frame := fun _ _ => none
    handle_internal_event := fun _ seq _ => (none, seq) }

/-- A freshly constructed engine over the trivial handler. -/
def engine0 : EventHandler Unit Unit Unit := EventHandler.new unitHandler ()

/-- The engine after one keepalive `Ping` event (state `AwaitingPong`). -/
def engine1 : EventHandler Unit Unit Unit := (engine0.handle_event .Ping).state

/-! The claims. -/

/-- C1: a newly constructed engine has `pong_received = true` (state
`Idle`), and a `Ping` event while `Idle` allocates a new sequence id
from the generator, returns an outbound `Ping` frame with that id and
flags 0, and transitions to `AwaitingPong` (`pong_received = false`,
generator advanced). -/
theorem ping_event_while_idle {τ π ε : Type} (handler : Handler τ π ε) (encoder : ε)
    (s : EventHandler τ π ε) (h : s.pong_received = true) :
    (EventHandler.new handler encoder).pong_received = true ∧
    (s.handle_event .Ping).result =
      .ok (some (.Ping { flags := 0, sequence_id := s.id_sequence.next.1 })) ∧
    (s.handle_event .Ping).state.pong_received = false ∧
    (s.handle_event .Ping).state.id_sequence = s.id_sequence.next.2 := by
  refine ⟨rfl, ?_, ?_, ?_⟩ <;>
    simp [EventHandler.handle_event, EventHandler.handle_ping, h, IdSequence.next]

/-- C1 witness: the fresh engine is `Idle`, and a `Ping` event on it
emits an outbound ping and moves it to `AwaitingPong`. -/
theorem ping_event_while_idle_witness :
    engine0.pong_received = true ∧
    (engine0.handle_event .Ping).result =
      .ok (some (.Ping { flags := 0, sequence_id := engine0.id_sequence.next.1 })) ∧
    (engine0.handle_event .Ping).state.pong_received = false :=
  ⟨rfl, (ping_event_while_idle unitHandler () engine0 rfl).2.1,
    (ping_event_while_idle unitHandler () engine0 rfl).2.2.1⟩

/-- C2: a `Ping` event while `AwaitingPong` (`pong_received = false`)
returns a `PingTimeout` error (and hence no frame). -/
theorem ping_event_while_awaiting_pong {τ π ε : Type} (s : EventHandler τ π ε)
    (h : s.pong_received = false) :
    (s.handle_event .Ping).result = .error .PingTimeout := by
  simp [EventHandler.handle_event, EventHandler.handle_ping, h]

/-- C2 witness: after one keepalive ping, a second `Ping` event fails
with `PingTimeout`. -/
theorem ping_event_while_awaiting_pong_witness :
    engine1.pong_received = false ∧
    (engine1.handle_event .Ping).result = .error .PingTimeout :=
  ⟨rfl, ping_event_while_awaiting_pong engine1 rfl⟩

/-- C4: an inbound `Pong` frame, whatever its sequence id and flags and
whatever the engine state, sets `pong_received := true` and returns no
frame; no field of the pong is inspected. -/
theorem pong_frame_clears_awaiting {τ π ε : Type} (s : EventHandler τ π ε)
    (pong : Pong) :
    (s.handle_event (.SocketReceive (.Pong pong))).result = .ok none ∧
    (s.handle_event (.SocketReceive (.Pong pong))).state =
      { s with pong_received := true } ∧
    (s.handle_event (.SocketReceive (.Pong pong))).effects = [] := by
  refine ⟨?_, ?_, ?_⟩ <;>
    simp [EventHandler.handle_event, EventHandler.handle_frame,
      EventHandler.handle_pong_frame]

/-- C5: an inbound `Ping` frame is answered with a `Pong` echoing its
flags and sequence id, the handler's ping hook is invoked exactly once,
and the engine state (in particular `pong_received`) is unchanged. -/
theorem ping_frame_echoed {τ π ε : Type} (s : EventHandler τ π ε)
    (ping : Ping) :
    (s.handle_event (.SocketReceive (.Ping ping))).result =
      .ok (some (.Pong { flags := ping.flags, sequence_id := ping.sequence_id })) ∧
    (s.handle_event (.SocketReceive (.Ping ping))).effects = [.handlePingCall] ∧
    (s.handle_event (.SocketReceive (.Ping ping))).state = s := by
  refine ⟨?_, ?_, ?_⟩ <;>
    simp [EventHandler.handle_event, EventHandler.handle_frame,
      EventHandler.handle_ping_frame]

/-- C6: an inbound `Hello` or `HelloAck` frame, in every engine state,
fails with `InvalidOpcode` carrying the frame's opcode and
`expected = none`, with no frame returned and no handler call. -/
theorem handshake_frame_invalid_opcode {τ π ε : Type} (s : EventHandler τ π ε)
    (hello : Hello) (helloAck : HelloAck) :
    (s.handle_event (.SocketReceive (.Hello hello))).result =
      .error (.InvalidOpcode (LoquiFrame.opcode (.Hello hello)) none) ∧
    (s.handle_event (.SocketReceive (.HelloAck helloAck))).result =
      .error (.InvalidOpcode (LoquiFrame.opcode (.HelloAck helloAck)) none) ∧
    (s.handle_event (.SocketReceive (.Hello hello))).effects = [] ∧
    (s.handle_event (.SocketReceive (.HelloAck helloAck))).effects = [] := by
  refine ⟨?_, ?_, ?_, ?_⟩ <;>
    simp [EventHandler.handle_event, EventHandler.handle_frame,
      EventHandler.handle_handshake_frame]

/-- C7: an inbound `GoAway` frame, in every engine state, fails with
`ToldToGoAway` carrying the original frame (payload preserved), with no
frame returned. -/
theorem go_away_frame_fails {τ π ε : Type} (s : EventHandler τ π ε)
    (go_away : GoAway) :
    (s.handle_event (.SocketReceive (.GoAway go_away))).result =
      .error (.ToldToGoAway go_away) ∧
    (s.handle_event (.SocketReceive (.GoAway go_away))).effects = [] := by
  refine ⟨?_, ?_⟩ <;>
    simp [EventHandler.handle_event, EventHandler.handle_frame]

/-- C8: a `Close` event, in every engine state, fails with
`ConnectionCloseRequested`, with no frame returned. -/
theorem close_event_fails {τ π ε : Type} (s : EventHandler τ π ε) :
    (s.handle_event .Close).result = .error .ConnectionCloseRequested ∧
    (s.handle_event .Close).effects = [] := by
  exact ⟨rfl, rfl⟩

/-- C3: `ResponseComplete(Ok(response))` returns exactly that `Response`
frame unmodified; `ResponseComplete(Err((error, sequence_id)))` returns
an `Error` frame with flags 0, the given sequence id, code
`InternalServerError`, and a payload derived from the error.  Both cases
succeed (result is `ok`, not a connection-fatal error). -/
theorem response_complete_result {τ π ε : Type} (s : EventHandler τ π ε)
    (response : Response) (error : AppError) (sequence_id : Nat) :
    (s.handle_event (.ResponseComplete (.ok response))).result =
      .ok (some (.Response response)) ∧
    (s.handle_event (.ResponseComplete (.error (error, sequence_id)))).result =
      .ok (some (.Error
        { flags := 0
          sequence_id := sequence_id
          code := LoquiErrorCode.InternalServerError
          payload := utf8Encode (rustStrDebug error.msg) })) := by
  refine ⟨?_, ?_⟩ <;>
    simp [EventHandler.handle_event, EventHandler.handle_response_complete]

/-- C9: each inbound `Request`, `Response`, `Push` or `Error` frame is
converted to the corresponding delegated frame and handed to the
handler's `handle_frame`; when the handler returns no pending
computation, the call returns `Ok(None)` and nothing is spawned. -/
theorem delegated_frames_no_pending {τ π ε : Type} (s : EventHandler τ π ε)
    (request : Request) (response : Response) (push : Push) (error : ErrorFrame)
    (hnone : ∀ d, s.handler.handle_frame d s.encoder = none) :
    ((s.handle_event (.SocketReceive (.Request request))).effects =
        [.handleFrameCall (.Request request)] ∧
      (s.handle_event (.SocketReceive (.Request request))).result = .ok none) ∧
    ((s.handle_event (.SocketReceive (.Response response))).effects =
        [.handleFrameCall (.Response response)] ∧
      (s.handle_event (.SocketReceive (.Response response))).result = .ok none) ∧
    ((s.handle_event (.SocketReceive (.Push push))).effects =
        [.handleFrameCall (.Push push)] ∧
      (s.handle_event (.SocketReceive (.Push push))).result = .ok none) ∧
    ((s.handle_event (.SocketReceive (.Error error))).effects =
        [.handleFrameCall (.Error error)] ∧
      (s.handle_event (.SocketReceive (.Error error))).result = .ok none) := by
  refine ⟨⟨?_, ?_⟩, ⟨?_, ?_⟩, ⟨?_, ?_⟩, ⟨?_, ?_⟩⟩ <;>
    simp [EventHandler.handle_event, EventHandler.handle_frame,
      EventHandler.delegate_frame, hnone]

/-- C9 witness: with the trivial handler (which never returns a pending
computation), delegating an inbound `Request` yields `Ok(None)` and the
single handler call. -/
theorem delegated_frames_no_pending_witness :
    (∀ d, engine0.handler.handle_frame d engine0.encoder = none) ∧
    ((engine0.handle_event (.SocketReceive
        (.Request { sequence_id := 7, payload := [] }))).effects =
      [.handleFrameCall (.Request { sequence_id := 7, payload := [] })] ∧
     (engine0.handle_event (.SocketReceive
        (.Request { sequence_id := 7, payload := [] }))).result = .ok none) :=
  ⟨fun _ => rfl,
    (delegated_frames_no_pending engine0 { sequence_id := 7, payload := [] }
      { sequence_id := 7, payload := [] } { payload := [] }
      { flags := 0, sequence_id := 0, code := 0, payload := [] }
      (fun _ => rfl)).1⟩

/-! Auxiliary facts about the UTF-8 / debug-escape model, used to show
the error payload of C10 is strictly longer than the bare message. -/

theorem utf8EncodeChar_length_pos (c : Char) : 1 ≤ (utf8EncodeChar c).length := by
  simp only [utf8EncodeChar]
  split
  · simp
  split
  · simp
  split
  · simp
  · simp

theorem utf8Encode_length_ge (cs : List Char) :
    cs.length ≤ (utf8Encode cs).length := by
  induction cs with
  | nil => simp [utf8Encode]
  | cons c cs ih =>
    have h := utf8EncodeChar_length_pos c
    simp only [utf8Encode, List.map_cons, List.flatten_cons, List.length_append,
      List.length_cons] at *
    omega

theorem utf8Encode_append (a b : List Char) :
    utf8Encode (a ++ b) = utf8Encode a ++ utf8Encode b := by
  simp [utf8Encode]

/-- The UTF-8 size of one debug-escaped character is at least the UTF-8
size of the character itself (escaped characters are all ASCII and
expand; other characters pass through unchanged). -/
theorem escapeDebugChar_utf8_ge (c : Char) :
    (utf8EncodeChar c).length ≤ (utf8Encode (escapeDebugChar c)).length := by
  unfold escapeDebugChar
  split
  case isTrue h => subst h; decide
  case isFalse =>
  split
  case isTrue h => subst h; decide
  case isFalse =>
  split
  case isTrue h => subst h; decide
  case isFalse =>
  split
  case isTrue h => subst h; decide
  case isFalse =>
  split
  case isTrue h => subst h; decide
  case isFalse =>
  split
  case isTrue h =>
    have hc : c.toNat = 0 := h
    have h1 : (utf8EncodeChar c).length = 1 := by
      unfold utf8EncodeChar
      rw [if_pos (by omega)]
      rfl
    have h2 : 2 ≤ (utf8Encode ['\\', '0']).length := by decide
    omega
  case isFalse =>
  split
  case isTrue h =>
    have h1 : (utf8EncodeChar c).length = 1 := by
      unfold utf8EncodeChar
      rw [if_pos (by omega)]
      rfl
    have h2 := utf8Encode_length_ge
      ('\\' :: 'u' :: '\x7b' ::
        ((if c.toNat < 16 then [hexDigitChar c.toNat]
          else [hexDigitChar (c.toNat / 16), hexDigitChar (c.toNat % 16)]) ++ ['\x7d']))
    have h3 : 3 ≤ ('\\' :: 'u' :: '\x7b' ::
        ((if c.toNat < 16 then [hexDigitChar c.toNat]
          else [hexDigitChar (c.toNat / 16), hexDigitChar (c.toNat % 16)]) ++
            ['\x7d'])).length := by
      simp
    omega
  case isFalse =>
    simp [utf8Encode]

theorem utf8Encode_escaped_ge (cs : List Char) :
    (utf8Encode cs).length ≤
      (utf8Encode (cs.map escapeDebugChar).flatten).length := by
  induction cs with
  | nil => simp
  | cons c cs ih =>
    have h := escapeDebugChar_utf8_ge c
    have hc : utf8Encode (c :: cs) = utf8EncodeChar c ++ utf8Encode cs := by
      simp [utf8Encode]
    rw [hc, List.map_cons, List.flatten_cons, utf8Encode_append]
    simp only [List.length_append]
    omega

/-- C10: the payload of the `Error` frame produced for
`ResponseComplete(Err((error, sequence_id)))` is exactly the UTF-8 bytes
of the `Debug` rendering of the error's display string — the message
debug-escaped and enclosed in literal double quotes — and is strictly
longer than the bare message bytes (so it is never the bare text). -/
theorem response_error_payload_debug {τ π ε : Type} (s : EventHandler τ π ε)
    (error : AppError) (sequence_id : Nat) :
    (s.handle_event (.ResponseComplete (.error (error, sequence_id)))).result =
      .ok (some (.Error
        { flags := 0
          sequence_id := sequence_id
          code := LoquiErrorCode.InternalServerError
          payload :=
            utf8Encode ('"' :: (error.msg.data.map escapeDebugChar).flatten ++ ['"']) })) ∧
    (utf8Encode error.msg.data).length <
      (utf8Encode (rustStrDebug error.msg)).length := by
  constructor
  · simp [EventHandler.handle_event, EventHandler.handle_response_complete,
      rustStrDebug]
  · have h1 := utf8Encode_escaped_ge error.msg.data
    have h2 : utf8Encode (rustStrDebug error.msg) =
        utf8Encode ['"'] ++
          (utf8Encode (error.msg.data.map escapeDebugChar).flatten ++
            utf8Encode ['"']) := by
      rw [rustStrDebug]
      rw [show ('"' :: (error.msg.data.map escapeDebugChar).flatten ++ ['"']) =
        ['"'] ++ ((error.msg.data.map escapeDebugChar).flatten ++ ['"']) from rfl]
      rw [utf8Encode_append, utf8Encode_append]
    have h3 : (utf8Encode ['"']).length = 1 := by decide
    rw [h2]
    simp only [List.length_append]
    omega

end Loqui
